import Mathlib

/-!
Shallow embedding of the response-normalization logic of `app.py` and
`gradio_app.py` (the functions `_extract_text` and `_extract_search_used`;
the two files contain character-identical copies of `_extract_text`).

Python values are modelled by the inductive type `PyVal`: attribute-style
objects carry an association list of attributes together with the string
produced by `str(...)` on them; dicts carry string-keyed association lists.
`getattr(x, name, None)` is `pyGetattr`, Python truthiness is `truthy`,
`str(...)` is `pyStr` (container rendering approximates CPython's repr),
and iteration (`for p in xs`) is `pyIter`, which raises (`Except.error`)
on non-iterable values exactly where CPython raises `TypeError`.

The single `try/except Exception: pass` block of `_extract_text` covering
its three structured strategies is modelled by `extract_text_try` in the
`Except Unit` monad; `extract_text` catches the error and runs the regex
fallback, exactly as the Python code does.  The fallback's regex
`text=(?:"""|')([\s\S]+?)(?:"""|')` is modelled concretely by `reFindall`
(literal `text=`, an opening delimiter that is either three double quotes
or one single quote, a lazy non-empty group, a closing delimiter of the
same alternation, scanning left to right and resuming after each match).
-/

/-- The single-quote character, `'`. -/
def squote : Char := Char.ofNat 39

/-- The double-quote character, `"`. -/
def dquote : Char := Char.ofNat 34

/-- A Python value, as far as the normalizer observes it. -/
inductive PyVal where
  | none : PyVal
  | bool : Bool → PyVal
  | int : Int → PyVal
  | str : String → PyVal
  | list : List PyVal → PyVal
  | dict : List (String × PyVal) → PyVal
  | obj : List (String × PyVal) → String → PyVal

/-- `v is None` in Python (the `is not None` checks in the source). -/
def isNone : PyVal → Bool
  | .none => true
  | _ => false

/-- Python truthiness, as used by `if t:` / `if parts:` / `if qs:`. -/
def truthy : PyVal → Bool
  | .none => false
  | .bool b => b
  | .int n => n != 0
  | .str s => s != ""
  | .list xs => !xs.isEmpty
  | .dict kvs => !kvs.isEmpty
  | .obj _ _ => true

/-- `getattr(v, name, None)`: only attribute-style objects expose the
attributes the normalizer probes; on every other value the default
`None` is returned. -/
def pyGetattr (v : PyVal) (name : String) : PyVal :=
  match v with
  | .obj attrs _ => (attrs.lookup name).getD .none
  | _ => .none

mutual

/-- `repr(v)` (used by `str` on containers); string escaping is
approximated by plain single-quote wrapping. -/
def pyRepr : PyVal → String
  | .none => "None"
  | .bool true => "True"
  | .bool false => "False"
  | .int n => toString n
  | .str s => String.mk [squote] ++ s ++ String.mk [squote]
  | .list xs => "[" ++ String.intercalate ", " (pyReprList xs) ++ "]"
  | .dict kvs => "\x7b" ++ String.intercalate ", " (pyReprDict kvs) ++ "\x7d"
  | .obj _ r => r

/-- reprs of the elements of a list value. -/
def pyReprList : List PyVal → List String
  | [] => []
  | v :: vs => pyRepr v :: pyReprList vs

/-- reprs of the key/value pairs of a dict value. -/
def pyReprDict : List (String × PyVal) → List String
  | [] => []
  | (k, v) :: kvs =>
      (String.mk [squote] ++ k ++ String.mk [squote] ++ ": " ++ pyRepr v) :: pyReprDict kvs

end

/-- `str(v)`: identity on strings, `repr`-like otherwise; attribute-style
objects render as their stored representation string. -/
def pyStr : PyVal → String
  | .str s => s
  | v => pyRepr v

/-- `s.strip()`: drop leading and trailing whitespace characters
(ASCII whitespace, as in every string this development evaluates). -/
def String.pyStrip (s : String) : String :=
  String.mk (((s.data.dropWhile Char.isWhitespace).reverse.dropWhile
    Char.isWhitespace).reverse)

/-- `for p in v`: lists iterate their elements, strings their characters,
dicts their keys; every other value raises `TypeError`. -/
def pyIter : PyVal → Except Unit (List PyVal)
  | .list xs => .ok xs
  | .str s => .ok (s.data.map fun c => .str (String.mk [c]))
  | .dict kvs => .ok (kvs.map fun kv => .str kv.1)
  | _ => .error ()

/-- Match a literal character sequence at the head of the input, returning
the rest. -/
def matchLit : List Char → List Char → Option (List Char)
  | [], s => some s
  | _ :: _, [] => none
  | p :: ps, c :: cs => if c = p then matchLit ps cs else none

/-- The regex delimiter alternation `(?:"""|')`: three double quotes, tried
first, else one single quote. -/
def delim (s : List Char) : Option (List Char) :=
  match s with
  | a :: b :: c :: rest =>
      if a = dquote && b = dquote && c = dquote then some rest
      else if a = squote then some (b :: c :: rest)
      else none
  | a :: rest => if a = squote then some rest else none
  | [] => none

/-- The lazy group `([\s\S]+?)` followed by the closing delimiter: the
shortest non-empty prefix after which `delim` matches, returning the group
and the input remaining after the closing delimiter. -/
def lazyGroup : List Char → Option (List Char × List Char)
  | [] => none
  | c :: cs =>
      match delim cs with
      | some rest => some ([c], rest)
      | none =>
          match lazyGroup cs with
          | some (g, rest) => some (c :: g, rest)
          | none => none

/-- The literal `text=` that opens every match of the fallback pattern. -/
def textEqPat : List Char := ['t', 'e', 'x', 't', '=']

/-- Left-to-right scan of `re.findall` for the fallback pattern; the fuel
starts at the input length and dominates it, since every step consumes at
least one character. -/
def reFindallAux : Nat → List Char → List String
  | 0, _ => []
  | _ + 1, [] => []
  | fuel + 1, c :: cs =>
      match matchLit textEqPat (c :: cs) with
      | some rest =>
          match delim rest with
          | some rest2 =>
              match lazyGroup rest2 with
              | some (g, rest3) => String.mk g :: reFindallAux fuel rest3
              | none => reFindallAux fuel cs
          | none => reFindallAux fuel cs
      | none => reFindallAux fuel cs

/-- `re.findall(r"text=(?:\"\"\"|\')([\s\S]+?)(?:\"\"\"|\')", s)`. -/
def reFindall (s : List Char) : List String := reFindallAux s.length s

/-- The regex-fallback tail of `_extract_text`: all matches, each stripped,
joined with a blank line; the input itself when there is no match. -/
def regexFallbackStr (s : String) : String :=
  let ms := reFindall s.data
  if ms.isEmpty then s else String.intercalate "\n\n" (ms.map String.pyStrip)

/-- The per-part collection of the structured-content strategy:
`t = getattr(p, "text", None); if t: append(str(t)); elif isinstance(p, dict)
and "text" in p: append(str(p["text"]))`. -/
def partFragment (p : PyVal) : Option String :=
  let t := pyGetattr p "text"
  if truthy t then some (pyStr t)
  else
    match p with
    | .dict kvs =>
        match kvs.lookup "text" with
        | some v => some (pyStr v)
        | none => none
    | _ => none

/-- The `texts` list built by the structured-content strategy's loop. -/
def collectParts (ps : List PyVal) : List String := ps.filterMap partFragment

/-- The per-part filter and map of the dict strategy's list comprehension:
`str(p.get("text")).strip() for p in parts if isinstance(p, dict)
and p.get("text")`. -/
def dictPartText (p : PyVal) : Option String :=
  match p with
  | .dict kvs =>
      match kvs.lookup "text" with
      | some v => if truthy v then some ((pyStr v).pyStrip) else none
      | none => none
  | _ => none

/-- The `texts` list built by the dict strategy's comprehension. -/
def dictPartTexts (ps : List PyVal) : List String := ps.filterMap dictPartText

/-- Strategy 1 of `_extract_text`: `content.parts[*].text`. -/
def strategy_content (resp : PyVal) : Except Unit (Option String) :=
  let content := pyGetattr resp "content"
  if isNone content then .ok none
  else
    let parts := pyGetattr content "parts"
    if truthy parts then
      match pyIter parts with
      | .error e => .error e
      | .ok items =>
          let texts := collectParts items
          if texts.isEmpty then .ok none
          else .ok (some ((String.intercalate "\n\n" texts).pyStrip))
    else .ok none

/-- Strategy 3 of `_extract_text`: dict-shaped responses. -/
def strategy_dict (resp : PyVal) : Except Unit (Option String) :=
  match resp with
  | .dict kvs =>
      match kvs.lookup "text" with
      | some v => .ok (some ((pyStr v).pyStrip))
      | none =>
          match (kvs.lookup "content").getD PyVal.none with
          | .dict ckvs =>
              match pyIter ((ckvs.lookup "parts").getD (PyVal.list [])) with
              | .error e => .error e
              | .ok items =>
                  let texts := dictPartTexts items
                  if texts.isEmpty then .ok none
                  else .ok (some (String.intercalate "\n\n" texts))
          | _ => .ok none
  | _ => .ok none

/-- The body of `_extract_text`'s single `try` block: strategies 1–3 in
order, sharing one error boundary; `.ok none` means the block fell through
without returning. -/
def extract_text_try (resp : PyVal) : Except Unit (Option String) :=
  match strategy_content resp with
  | .error e => .error e
  | .ok (some s) => .ok (some s)
  | .ok none =>
      let t := pyGetattr resp "text"
      if truthy t then .ok (some ((pyStr t).pyStrip))
      else strategy_dict resp

/-- `_extract_text`: the try block's result when it returned, otherwise
(fall-through or exception) the regex fallback over `str(resp)`. -/
def extract_text (resp : PyVal) : String :=
  match extract_text_try resp with
  | .ok (some s) => s
  | .ok none => regexFallbackStr (pyStr resp)
  | .error _ => regexFallbackStr (pyStr resp)

/-- The loop of `_extract_search_used` over the grounding chunks:
`web = getattr(ch, "web", None); if web is not None and getattr(web, "uri",
None): return True`. -/
def anyWebUri (items : List PyVal) : Bool :=
  items.any fun ch =>
    let web := pyGetattr ch "web"
    !(isNone web) && truthy (pyGetattr web "uri")

/-- The grounding-metadata phase of `_extract_search_used`: `.ok true` when
the chunk loop returned `True`, `.error` when iterating the chunks raised. -/
def groundingPhase (resp : PyVal) : Except Unit Bool :=
  let gm := pyGetattr resp "grounding_metadata"
  if isNone gm then .ok false
  else
    let chunks := pyGetattr gm "grounding_chunks"
    if truthy chunks then
      match pyIter chunks with
      | .error e => .error e
      | .ok items => .ok (anyWebUri items)
    else .ok false

/-- The body of `_extract_search_used`'s `try` block: the grounding phase,
then the `web_search_queries` truthiness check. -/
def extract_search_used_try (resp : PyVal) : Except Unit Bool :=
  match groundingPhase resp with
  | .error e => .error e
  | .ok true => .ok true
  | .ok false => .ok (truthy (pyGetattr resp "web_search_queries"))

/-- `_extract_search_used`: the try block's result, `False` on exception. -/
def extract_search_used (resp : PyVal) : Bool :=
  match extract_search_used_try resp with
  | .ok b => b
  | .error _ => false

/-- The `QueryOut` pair `(text, search_used)` built by the `/query`
handler from one response value. -/
def normalizeResp (resp : PyVal) : String × Bool :=
  (extract_text resp, extract_search_used resp)

/-! ### Helper lemmas -/

theorem isEmpty_false_of_ne_nil {α : Type} {l : List α} (h : l ≠ []) :
    l.isEmpty = false := by
  cases l with
  | nil => exact absurd rfl h
  | cons a l => rfl

theorem eq_pynone_of_isNone {v : PyVal} (h : isNone v = true) : v = PyVal.none := by
  cases v <;> simp [isNone] at h ⊢

theorem extract_text_of_strategy_content (resp : PyVal) (s : String)
    (h : strategy_content resp = .ok (some s)) : extract_text resp = s := by
  unfold extract_text extract_text_try
  rw [h]

theorem strategy_content_eq (resp c : PyVal) (ps : List PyVal)
    (hc : pyGetattr resp "content" = c) (hcn : isNone c = false)
    (hp : pyGetattr c "parts" = PyVal.list ps)
    (hne : collectParts ps ≠ []) :
    strategy_content resp =
      .ok (some ((String.intercalate "\n\n" (collectParts ps)).pyStrip)) := by
  have hps : ps ≠ [] := by
    intro h
    exact hne (by simp [h, collectParts])
  unfold strategy_content
  rw [hc]
  simp [hcn, hp, truthy, pyIter, isEmpty_false_of_ne_nil hps, isEmpty_false_of_ne_nil hne]

theorem collectParts_map_str (ps : List PyVal) (ts : List String)
    (hmap : ps.map (fun p => pyGetattr p "text") = ts.map PyVal.str)
    (hne : ∀ t ∈ ts, t ≠ "") :
    collectParts ps = ts := by
  induction ps generalizing ts with
  | nil =>
      cases ts with
      | nil => rfl
      | cons t ts' => simp at hmap
  | cons p ps ih =>
      cases ts with
      | nil => simp at hmap
      | cons t ts' =>
          simp only [List.map_cons, List.cons.injEq] at hmap
          obtain ⟨h1, h2⟩ := hmap
          have ht : t ≠ "" := hne t (by simp)
          have htr : truthy (PyVal.str t) = true := by
            simpa [truthy] using ht
          have hfrag : partFragment p = some t := by
            simp [partFragment, h1, htr, pyStr]
          simp only [collectParts, List.filterMap_cons, hfrag]
          exact congrArg (t :: ·) (ih ts' h2 fun t' h' => hne t' (by simp [h']))

theorem extract_text_dict_text (kvs : List (String × PyVal)) (v : PyVal)
    (h : kvs.lookup "text" = some v) :
    extract_text (PyVal.dict kvs) = (pyStr v).pyStrip := by
  unfold extract_text extract_text_try strategy_content strategy_dict
  simp [pyGetattr, isNone, truthy, h]

/-! ### Claim theorems -/

/-- C1 (counterexample): with `content.parts` holding texts `"a "` and
`"b"`, extraction returns `"a \n\nb"` — the trailing space of the first
fragment survives, so fragments are not individually trimmed as the claim
states. -/
theorem c1_counterexample :
    extract_text (PyVal.obj [("content", PyVal.obj
        [("parts", PyVal.list [PyVal.obj [("text", PyVal.str "a ")] "p1",
          PyVal.obj [("text", PyVal.str "b")] "p2"])] "c")] "r") = "a \n\nb"
    ∧ ("a \n\nb" : String) ≠ "a\n\nb" := by
  constructor <;> decide

/-- C1 (amended): for a response exposing attribute-style `content.parts`
whose parts carry non-empty `text` fields `[t1..tN]` (N ≥ 1), extraction
returns the fragments in order joined by `"\n\n"`, with the joined string
trimmed of leading/trailing whitespace as a whole (fragments are not
individually trimmed). -/
theorem c1_join_then_trim (resp c : PyVal) (ps : List PyVal) (ts : List String)
    (hc : pyGetattr resp "content" = c) (hcn : isNone c = false)
    (hp : pyGetattr c "parts" = PyVal.list ps)
    (hmap : ps.map (fun p => pyGetattr p "text") = ts.map PyVal.str)
    (hne : ∀ t ∈ ts, t ≠ "") (hts : ts ≠ []) :
    extract_text resp = (String.intercalate "\n\n" ts).pyStrip := by
  have hcol : collectParts ps = ts := collectParts_map_str ps ts hmap hne
  have hne' : collectParts ps ≠ [] := by rw [hcol]; exact hts
  have hstrat := strategy_content_eq resp c ps hc hcn hp hne'
  rw [hcol] at hstrat
  exact extract_text_of_strategy_content resp _ hstrat

/-- C1 (witness): the amended theorem applied to a concrete two-part
response with fragments `"a "` and `"b"`. -/
theorem c1_witness :
    extract_text (PyVal.obj [("content", PyVal.obj
        [("parts", PyVal.list [PyVal.obj [("text", PyVal.str "a ")] "p1",
          PyVal.obj [("text", PyVal.str "b")] "p2"])] "c")] "r") =
      (String.intercalate "\n\n" ["a ", "b"]).pyStrip :=
  c1_join_then_trim _ _ _ ["a ", "b"] rfl rfl rfl rfl
    (by intro t h; simp at h; rcases h with h | h <;> simp [h]) (by simp)

/-- C2 (counterexample): a response whose textual representation is exactly
`text="hello"` (single double quotes) is not matched by the fallback
pattern, whose delimiters are only three double quotes or one single
quote; extraction returns the raw representation, not `"hello"`. -/
theorem c2_counterexample :
    extract_text (PyVal.obj []
        ("text=" ++ String.mk [dquote] ++ "hello" ++ String.mk [dquote])) ≠ "hello"
    ∧ extract_text (PyVal.obj []
        ("text=" ++ String.mk [dquote] ++ "hello" ++ String.mk [dquote])) =
      "text=" ++ String.mk [dquote] ++ "hello" ++ String.mk [dquote] := by
  constructor <;> decide

/-- C2 (amended): for responses matched by no structured strategy the
fallback scans the textual representation with the `text=` pattern whose
delimiters are triple-double-quote or single-quote (a single double quote
is not a supported delimiter), strips each match, joins them with
`"\n\n"`, and returns the raw representation when there is no match; in
particular `text='hello'` yields `"hello"` while `text="hello"` falls to
the raw representation. -/
theorem c2_regex_fallback :
    (∀ r : String, extract_text (PyVal.obj [] r) = regexFallbackStr r)
    ∧ extract_text (PyVal.obj []
        ("text=" ++ String.mk [squote] ++ "hello" ++ String.mk [squote])) = "hello"
    ∧ extract_text (PyVal.obj []
        ("text=" ++ String.mk [dquote, dquote, dquote] ++ " hi there " ++
          String.mk [dquote, dquote, dquote])) = "hi there"
    ∧ extract_text (PyVal.obj []
        ("text=" ++ String.mk [squote] ++ " a " ++ String.mk [squote] ++
         " text=" ++ String.mk [squote] ++ "b" ++ String.mk [squote])) =
      "a" ++ "\n\n" ++ "b"
    ∧ (∀ r : String, reFindall r.data = [] → extract_text (PyVal.obj [] r) = r) := by
  refine ⟨fun r => rfl, by decide, by decide, by decide, fun r h => ?_⟩
  show regexFallbackStr r = r
  simp [regexFallbackStr, h]

/-- C2 (witness): the no-match branch of the amended theorem at the
representation `"Event()"`. -/
theorem c2_witness :
    reFindall ("Event()" : String).data = [] ∧
      extract_text (PyVal.obj [] "Event()") = "Event()" :=
  ⟨by decide, c2_regex_fallback.2.2.2.2 "Event()" (by decide)⟩

/-- C3: extraction and detection are total functions of the response value
(the embedding returns a value on every input, mirroring that the source
catches every exception), and on an entirely empty response object with no
recognized fields whose representation the fallback pattern does not
match, extraction returns the raw textual representation and detection
returns `false`. -/
theorem c3_total_and_boundary :
    (∀ v : PyVal, ∃ s : String, extract_text v = s)
    ∧ (∀ v : PyVal, extract_search_used v = true ∨ extract_search_used v = false)
    ∧ (∀ r : String, reFindall r.data = [] →
        extract_text (PyVal.obj [] r) = r ∧
          extract_search_used (PyVal.obj [] r) = false) := by
  refine ⟨fun v => ⟨extract_text v, rfl⟩,
    fun v => by cases h : extract_search_used v <;> simp,
    fun r h => ⟨?_, rfl⟩⟩
  show regexFallbackStr r = r
  simp [regexFallbackStr, h]

/-- C3 (witness): the boundary part at the representation `"Event()"`. -/
theorem c3_witness :
    reFindall ("Event()" : String).data = [] ∧
      (extract_text (PyVal.obj [] "Event()") = "Event()" ∧
        extract_search_used (PyVal.obj [] "Event()") = false) :=
  ⟨by decide, c3_total_and_boundary.2.2 "Event()" (by decide)⟩

/-- C4 (counterexample): a response whose `content.parts` is a non-iterable
value (so the structured-content strategy raises) but which carries a
direct `text` attribute `"hi"`: the claim predicts the direct-text
strategy still runs and yields `"hi"`, yet the code's single `try` block
jumps straight to the regex fallback and returns the raw representation
`"RAWR"`. -/
theorem c4_counterexample :
    extract_text_try (PyVal.obj [("content", PyVal.obj [("parts", PyVal.int 5)] "pc"),
        ("text", PyVal.str "hi")] "RAWR") = .error ()
    ∧ extract_text (PyVal.obj [("content", PyVal.obj [("parts", PyVal.int 5)] "pc"),
        ("text", PyVal.str "hi")] "RAWR") = "RAWR"
    ∧ ("RAWR" : String) ≠ "hi" := by
  refine ⟨rfl, by decide, by decide⟩

/-- C4 (amended): an error raised inside any structured strategy is
swallowed, but the three structured strategies share one error boundary:
control falls directly to the regex fallback over the textual
representation, skipping the remaining structured strategies (an error in
the structured-content strategy bypasses the direct-text and dict
strategies). -/
theorem c4_single_error_boundary :
    (∀ resp : PyVal, extract_text_try resp = .error () →
      extract_text resp = regexFallbackStr (pyStr resp))
    ∧ strategy_content (PyVal.obj [("content", PyVal.obj [("parts", PyVal.int 5)] "pc"),
        ("text", PyVal.str "hi")] "RAWR") = .error () := by
  refine ⟨fun resp h => ?_, rfl⟩
  unfold extract_text
  rw [h]

/-- C4 (witness): the amended theorem applied to the concrete response
whose `content.parts` is the non-iterable `5`. -/
theorem c4_witness :
    extract_text_try (PyVal.obj [("content", PyVal.obj [("parts", PyVal.int 5)] "pc"),
        ("text", PyVal.str "hi")] "RAWR") = .error ()
    ∧ extract_text (PyVal.obj [("content", PyVal.obj [("parts", PyVal.int 5)] "pc"),
        ("text", PyVal.str "hi")] "RAWR") =
      regexFallbackStr (pyStr (PyVal.obj [("content",
        PyVal.obj [("parts", PyVal.int 5)] "pc"), ("text", PyVal.str "hi")] "RAWR")) :=
  ⟨rfl, c4_single_error_boundary.1 _ rfl⟩

/-- C5: search-usage detection returns `true` when the response exposes
grounding metadata whose `grounding_chunks` is a non-empty list with some
chunk exposing a `web` reference with a truthy `uri`; otherwise `true`
when the chunk phase found nothing and `web_search_queries` is truthy
(non-empty); an error inside the probing returns `false`; and whenever it
returns `true` there was positive evidence (a successfully iterated chunk
list with a web URI, or truthy `web_search_queries`). -/
theorem c5_search_detection :
    ∀ resp : PyVal,
      (isNone (pyGetattr resp "grounding_metadata") = false →
        ∀ items : List PyVal,
          pyGetattr (pyGetattr resp "grounding_metadata") "grounding_chunks" =
            PyVal.list items →
          items ≠ [] → anyWebUri items = true → extract_search_used resp = true)
      ∧ (∀ items : List PyVal,
          (isNone (pyGetattr resp "grounding_metadata") = true ∨
            (pyGetattr (pyGetattr resp "grounding_metadata") "grounding_chunks" =
              PyVal.list items ∧ anyWebUri items = false)) →
          truthy (pyGetattr resp "web_search_queries") = true →
          extract_search_used resp = true)
      ∧ (extract_search_used_try resp = .error () → extract_search_used resp = false)
      ∧ (extract_search_used resp = true →
          (∃ items : List PyVal,
            pyIter (pyGetattr (pyGetattr resp "grounding_metadata")
              "grounding_chunks") = .ok items ∧ anyWebUri items = true) ∨
          truthy (pyGetattr resp "web_search_queries") = true) := by
  intro resp
  refine ⟨fun h1 items h2 h3 h4 => ?_, fun items h hq => ?_, fun h => ?_, fun h => ?_⟩
  · have htl : truthy (PyVal.list items) = !items.isEmpty := rfl
    unfold extract_search_used extract_search_used_try groundingPhase
    simp [h1, h2, htl, isEmpty_false_of_ne_nil h3, pyIter, h4]
  · rcases h with h | ⟨h2, h4⟩
    · unfold extract_search_used extract_search_used_try groundingPhase
      simp [h, hq]
    · have h1 : isNone (pyGetattr resp "grounding_metadata") = false := by
        cases hgm : isNone (pyGetattr resp "grounding_metadata") with
        | false => rfl
        | true =>
            rw [eq_pynone_of_isNone hgm] at h2
            simp [pyGetattr] at h2
      have htl : truthy (PyVal.list items) = !items.isEmpty := rfl
      unfold extract_search_used extract_search_used_try groundingPhase
      cases hemp : items.isEmpty with
      | true => simp [h1, h2, htl, hemp, hq]
      | false => simp [h1, h2, htl, hemp, pyIter, h4, hq]
  · unfold extract_search_used
    rw [h]
  · unfold extract_search_used extract_search_used_try at h
    cases hgp : groundingPhase resp with
    | error e => rw [hgp] at h; simp at h
    | ok b =>
        cases b with
        | true =>
            left
            unfold groundingPhase at hgp
            simp only [] at hgp
            split at hgp
            · simp at hgp
            · split at hgp
              · split at hgp
                · simp at hgp
                · rename_i items hit
                  simp only [Except.ok.injEq] at hgp
                  exact ⟨items, hit, hgp⟩
              · simp at hgp
        | false =>
            right
            rw [hgp] at h
            exact h

/-- C5 (witness): the first branch of the theorem at a concrete grounded
response with one chunk carrying a web URI. -/
theorem c5_witness :
    extract_search_used (PyVal.obj [("grounding_metadata", PyVal.obj
        [("grounding_chunks", PyVal.list [PyVal.obj
          [("web", PyVal.obj [("uri", PyVal.str "http://x")] "w")] "ch"])] "gm")]
      "r") = true :=
  (c5_search_detection _).1 rfl
    [PyVal.obj [("web", PyVal.obj [("uri", PyVal.str "http://x")] "w")] "ch"]
    rfl (List.cons_ne_nil _ _) rfl

/-- C6 (counterexample): a dict-style part `{"text": None}` is not skipped:
its `"text"` key is present, so `str(None)` — the string `"None"` — is
collected and becomes the extraction result, where the claim predicts the
part contributes no fragment (which would have sent extraction to the
fallback and the raw representation `"r"`). -/
theorem c6_counterexample :
    extract_text (PyVal.obj [("content", PyVal.obj
        [("parts", PyVal.list [PyVal.dict [("text", PyVal.none)]])] "c")] "r") = "None"
    ∧ ("None" : String) ≠ "r" := by
  constructor <;> decide

/-- C6 (amended): for each part in order the strategy collects the
attribute-style `text` when it is truthy; otherwise, when the part is a
dict containing a `"text"` key, it collects the stringified value of that
key even when the value is empty or `None`; only parts matching neither
case are skipped. -/
theorem c6_part_collection :
    (∀ (resp c : PyVal) (ps : List PyVal),
      pyGetattr resp "content" = c → isNone c = false →
      pyGetattr c "parts" = PyVal.list ps → collectParts ps ≠ [] →
      extract_text resp =
        (String.intercalate "\n\n" (ps.filterMap partFragment)).pyStrip)
    ∧ partFragment (PyVal.dict [("text", PyVal.none)]) = some "None"
    ∧ partFragment (PyVal.dict [("text", PyVal.str "")]) = some ""
    ∧ partFragment (PyVal.obj [("text", PyVal.str "")] "p") = none
    ∧ partFragment (PyVal.obj [] "p") = none := by
  refine ⟨fun resp c ps hc hcn hp hne => ?_, rfl, rfl, rfl, rfl⟩
  exact extract_text_of_strategy_content resp _
    (strategy_content_eq resp c ps hc hcn hp hne)

/-- C6 (witness): the collection equation at a concrete response whose
single part is the dict `{"text": None}`. -/
theorem c6_witness :
    extract_text (PyVal.obj [("content", PyVal.obj
        [("parts", PyVal.list [PyVal.dict [("text", PyVal.none)]])] "c")] "r") =
      (String.intercalate "\n\n"
        ([PyVal.dict [("text", PyVal.none)]].filterMap partFragment)).pyStrip :=
  c6_part_collection.1 _ _ [PyVal.dict [("text", PyVal.none)]] rfl rfl rfl
    (by decide)

/-- C7: a dict-shaped response `{"text": s}` extracts to `strip(s)`;
the dict `{"content": {"parts": [{"text": "a"}, {"text": "b"}]}}` extracts
to `"a\n\nb"`; and the `"text"` key takes priority over `"content"` when
both are present. -/
theorem c7_dict_extraction :
    (∀ s : String, extract_text (PyVal.dict [("text", PyVal.str s)]) = s.pyStrip)
    ∧ extract_text (PyVal.dict [("content", PyVal.dict [("parts", PyVal.list
        [PyVal.dict [("text", PyVal.str "a")],
         PyVal.dict [("text", PyVal.str "b")]])])]) = "a" ++ "\n\n" ++ "b"
    ∧ (∀ (s : String) (c : PyVal),
        extract_text (PyVal.dict [("text", PyVal.str s), ("content", c)]) =
          s.pyStrip) := by
  refine ⟨fun s => extract_text_dict_text [("text", PyVal.str s)] (PyVal.str s) rfl,
    by decide,
    fun s c => extract_text_dict_text [("text", PyVal.str s), ("content", c)]
      (PyVal.str s) rfl⟩

/-- C8 (counterexample): the structured-content strategy fires on a
whitespace-only fragment and the stripped join is empty, although the same
response carries extractable text `"hello"` under the recognized direct
`text` shape; the normalized `text` is the empty string. -/
theorem c8_counterexample :
    extract_text (PyVal.obj [("content", PyVal.obj
        [("parts", PyVal.list [PyVal.obj [("text", PyVal.str " ")] "p"])] "c"),
      ("text", PyVal.str "hello")] "r") = ""
    ∧ pyGetattr (PyVal.obj [("content", PyVal.obj
        [("parts", PyVal.list [PyVal.obj [("text", PyVal.str " ")] "p"])] "c"),
      ("text", PyVal.str "hello")] "r") "text" = PyVal.str "hello" := by
  exact ⟨by decide, rfl⟩

/-- C8 (amended): `text` is non-empty whenever the strategy that actually
fires produces a string that is non-empty after stripping — e.g. a
dict-shaped `{"text": s}` with `strip(s)` non-empty, or a direct `text`
attribute reached after the content strategy found nothing — but an
earlier strategy whose fragments are all whitespace yields an empty `text`
even when extractable text exists under a later recognized shape. -/
theorem c8_nonempty_on_stripped_nonempty :
    (∀ (kvs : List (String × PyVal)) (s : String),
      kvs.lookup "text" = some (PyVal.str s) → s.pyStrip ≠ "" →
      extract_text (PyVal.dict kvs) ≠ "")
    ∧ (∀ (resp : PyVal) (s : String),
      strategy_content resp = .ok none → pyGetattr resp "text" = PyVal.str s →
      s.pyStrip ≠ "" → extract_text resp = s.pyStrip) := by
  constructor
  · intro kvs s hl hs
    rw [extract_text_dict_text kvs _ hl]
    exact hs
  · intro resp s hsc ht hs
    have hne : s ≠ "" := by
      intro h
      rw [h] at hs
      exact hs rfl
    have htr : truthy (PyVal.str s) = true := by simpa [truthy] using hne
    unfold extract_text extract_text_try
    rw [hsc, ht]
    simp [htr, pyStr]

/-- C8 (witness): both branches at concrete inputs: the dict `{"text":
"hi"}` yields a non-empty result, and a direct-text response yields the
stripped attribute value. -/
theorem c8_witness :
    extract_text (PyVal.dict [("text", PyVal.str "hi")]) ≠ ""
    ∧ extract_text (PyVal.obj [("text", PyVal.str " hi ")] "r") =
      (" hi " : String).pyStrip :=
  ⟨c8_nonempty_on_stripped_nonempty.1 [("text", PyVal.str "hi")] "hi" rfl
      (by decide),
    c8_nonempty_on_stripped_nonempty.2 (PyVal.obj [("text", PyVal.str " hi ")] "r")
      " hi " rfl rfl (by decide)⟩

/-- C9: text extraction and search-usage detection are deterministic
functions of the response value: two runs on the same value produce
identical results (the embedding is a pure total function, mirroring that
the source only reads its input and allocates local lists). -/
theorem c9_deterministic :
    ∀ resp : PyVal,
      (normalizeResp resp, normalizeResp resp).1 =
        (normalizeResp resp, normalizeResp resp).2
      ∧ normalizeResp resp = (extract_text resp, extract_search_used resp) :=
  fun _ => ⟨rfl, rfl⟩

/-- C10: a dict-shaped response containing a `"text"` key extracts to the
stringified, stripped value of that key even when the value is falsy —
`{"text": None}` yields `"None"`, `{"text": ""}` yields `""` — never
falling through to `"content"` or to the regex fallback; whereas the
attribute-style direct-text strategy falls through on a falsy value (an
object whose `text` attribute is `""` falls to the raw representation). -/
theorem c10_dict_text_unconditional :
    (∀ (kvs : List (String × PyVal)) (v : PyVal),
      kvs.lookup "text" = some v →
      extract_text (PyVal.dict kvs) = (pyStr v).pyStrip)
    ∧ extract_text (PyVal.dict [("text", PyVal.none)]) = "None"
    ∧ extract_text (PyVal.dict [("text", PyVal.str "")]) = ""
    ∧ (∀ r : String, reFindall r.data = [] →
        extract_text (PyVal.obj [("text", PyVal.str "")] r) = r) := by
  refine ⟨extract_text_dict_text, by decide, by decide, fun r h => ?_⟩
  show regexFallbackStr r = r
  simp [regexFallbackStr, h]

/-- C10 (witness): the key equation at `{"text": None}` and the
attribute-style fall-through at the representation `"Raw()"`. -/
theorem c10_witness :
    extract_text (PyVal.dict [("text", PyVal.none)]) =
      (pyStr PyVal.none).pyStrip
    ∧ (reFindall ("Raw()" : String).data = [] ∧
        extract_text (PyVal.obj [("text", PyVal.str "")] "Raw()") = "Raw()") :=
  ⟨c10_dict_text_unconditional.1 [("text", PyVal.none)] PyVal.none rfl,
    by decide, c10_dict_text_unconditional.2.2.2 "Raw()" (by decide)⟩
